import Mathlib

/-!
Verification of the SketchyAF game phase state machine and timer-expiry
coordination subsystem.

The definitions below are a shallow embedding of the per-game processing
closure of the `monitor-game-timers` Edge Function
(`supabase/functions/broadcast-pubnub-event/index.ts`, second document),
of its grace-period helper `handleDrawingPhaseGracePeriod`, of the
database monitor `monitor_game_timers_db`
(`supabase/migrations/20250629105325_database_timer_monitoring.sql`),
and of the PubNub broadcaster retry logic
(`broadcastWithRetry` / `broadcastToPubNubWithRetry` in the first
document of `index.ts`).

Timestamps are modelled as integers (epoch milliseconds).  Store
reads/writes that the code assumes succeed are modelled as pure state
passing; explicitly handled failure branches (missing game row, missing
grace record) are modelled with `Option`.
-/

/-- The game status enumeration (`game_status` in the store). -/
inductive GameStatus where
  | waiting
  | briefing
  | drawing
  | voting
  | results
  | completed
  | cancelled
deriving DecidableEq, Repr, Fintype

/-- The `nextPhaseMap` record of the monitor Edge Function
(index.ts lines 711-715): lookup returns `undefined` (here `none`)
for every status other than briefing/drawing/voting. -/
def nextPhaseMap : GameStatus → Option GameStatus
  | GameStatus.briefing => some GameStatus.drawing
  | GameStatus.drawing => some GameStatus.voting
  | GameStatus.voting => some GameStatus.completed
  | _ => none

/-- The `next_status` CASE expression of `monitor_game_timers_db`
(database_timer_monitoring.sql lines 135-140). -/
def next_status_db : GameStatus → Option GameStatus
  | GameStatus.briefing => some GameStatus.drawing
  | GameStatus.drawing => some GameStatus.voting
  | GameStatus.voting => some GameStatus.completed
  | _ => none

/-- One row of the `games` table, restricted to the columns the timer
monitor reads and writes. -/
structure GameRow where
  status : GameStatus
  phase_expires_at : Option Int
deriving DecidableEq, Repr

/-- The slice of the relational store touched while processing one game:
its `games` row (`none` models a deleted/inaccessible row), the counts of
its `game_participants` and `submissions` rows, and the
`drawing_grace_<id>` entry of `game_metadata` (the GraceRecord, holding
`grace_started_at`). -/
structure GameStore where
  game : Option GameRow
  participants : Nat
  submissions : Nat
  grace : Option Int
deriving DecidableEq, Repr

/-- Result triple of `handleDrawingPhaseGracePeriod` (reason string
omitted; the reason is reflected in the `SkipReason` of the caller). -/
structure GraceResult where
  shouldSkip : Bool
  shouldDelay : Bool
deriving DecidableEq, Repr

/-- The grace duration `gracePeriodSeconds = 15` (index.ts line 1144). -/
def gracePeriodSeconds : Int := 15

/-- Embeds `handleDrawingPhaseGracePeriod` (index.ts lines 1096-1206).
Reads the game row and the submission/participant counts; if all players
submitted it proceeds untouched; otherwise it starts a grace period
(inserting the GraceRecord and re-arming `phase_expires_at` to
`now + 15s`) or, once the window elapsed, deletes the GraceRecord and
proceeds. -/
def handleDrawingPhaseGracePeriod (st : GameStore) (now : Int) :
    GraceResult × GameStore :=
  match st.game with
  | none => (⟨true, false⟩, st)
  | some row =>
    if st.submissions ≥ st.participants then
      (⟨false, false⟩, st)
    else
      match st.grace with
      | none =>
        (⟨false, true⟩,
          { st with
              grace := some now
              game := some { row with
                phase_expires_at := some (now + gracePeriodSeconds * 1000) } })
      | some graceStart =>
        if now ≥ graceStart + gracePeriodSeconds * 1000 then
          (⟨false, false⟩, { st with grace := none })
        else
          (⟨false, true⟩, st)

/-- A compare-and-swap on the status value: succeed exactly when the
current status equals the expected one. -/
def casStatus (expected newStatus current : GameStatus) : Bool × GameStatus :=
  if current = expected then (true, newStatus) else (false, current)

/-- Modelled from the spec: the database function `transition_game_status`
is called from the monitors (index.ts line 776, timer_monitoring.sql
line 170) but its body is not part of the repository sources.  Per the
spec it is the single conditional write
`update status WHERE id = X AND status = snapshot_status`
(`conditionalUpdateStatus(gameId, expectedStatus, newStatus) → bool`),
returning whether the row matched and was updated. -/
def transition_game_status (expected newStatus : GameStatus)
    (st : GameStore) : Bool × GameStore :=
  match st.game with
  | none => (false, st)
  | some row =>
    let c := casStatus expected newStatus row.status
    (c.1, { st with game := some { row with status := c.2 } })

/-- Per-game outcome counted by the monitor (`processed++` / `errors++` /
`skipped++`). -/
inductive TransitionResult where
  | processed
  | error
  | skipped
deriving DecidableEq, Repr

/-- Which guard produced a `skipped` outcome, mirroring the log messages
of the per-game closure. -/
inductive SkipReason where
  | noNextPhase
  | graceSkip
  | graceDelay
  | notFound
  | statusChanged
  | timerExtended
deriving DecidableEq, Repr

/-- Output of one `attemptTransition` call: the per-game result, the
store after the call, the phase-change events successfully published,
and the guard that caused a skip (if any). -/
structure StepOutput where
  result : TransitionResult
  store : GameStore
  broadcasts : List (GameStatus × GameStatus)
  reason : Option SkipReason
deriving DecidableEq, Repr

/-- The transition execution (index.ts lines 775-829): conditional status
update, then best-effort broadcast.  `broadcastOk` is the outcome of the
broadcast call; its failure is caught (line 826-829) and neither reverts
the transition nor changes the per-game result. -/
def execTransition (snapshot nextStatus : GameStatus) (st : GameStore)
    (broadcastOk : Bool) : StepOutput :=
  let r := transition_game_status snapshot nextStatus st
  if r.1 then
    ⟨TransitionResult.processed, r.2,
      if broadcastOk then [(snapshot, nextStatus)] else [], none⟩
  else
    ⟨TransitionResult.error, r.2, [], none⟩

/-- The per-game processing closure of the monitor Edge Function
(index.ts lines 704-835), for one expired-game snapshot whose status is
`snapshot`: map to the next phase, run the grace-period rule for
drawing→voting, re-read the row, abort if the status changed or the
timer was extended, then execute the conditional transition. -/
def attemptTransition (snapshot : GameStatus) (st : GameStore) (now : Int)
    (broadcastOk : Bool) : StepOutput :=
  match nextPhaseMap snapshot with
  | none => ⟨TransitionResult.skipped, st, [], some SkipReason.noNextPhase⟩
  | some nextStatus =>
    let graceStep :=
      if snapshot = GameStatus.drawing ∧ nextStatus = GameStatus.voting then
        handleDrawingPhaseGracePeriod st now
      else
        (⟨false, false⟩, st)
    let st1 := graceStep.2
    if graceStep.1.shouldSkip then
      ⟨TransitionResult.skipped, st1, [], some SkipReason.graceSkip⟩
    else if graceStep.1.shouldDelay then
      ⟨TransitionResult.skipped, st1, [], some SkipReason.graceDelay⟩
    else
      match st1.game with
      | none => ⟨TransitionResult.skipped, st1, [], some SkipReason.notFound⟩
      | some gameCheck =>
        if gameCheck.status = snapshot then
          match gameCheck.phase_expires_at with
          | some expiresAt =>
            if expiresAt > now then
              ⟨TransitionResult.skipped, st1, [], some SkipReason.timerExtended⟩
            else
              execTransition snapshot nextStatus st1 broadcastOk
          | none => execTransition snapshot nextStatus st1 broadcastOk
        else
          ⟨TransitionResult.skipped, st1, [], some SkipReason.statusChanged⟩

/-- C2 -- For every expired game, `attemptTransition` computes the next
status by the fixed mapping briefing→drawing, drawing→voting,
voting→completed; for a game in any other status (waiting, results,
completed, cancelled) it returns skipped ("no valid next phase") and
performs no store mutation. -/
theorem attemptTransition_nextPhaseMap_and_invalid_noop :
    (nextPhaseMap GameStatus.briefing = some GameStatus.drawing ∧
     nextPhaseMap GameStatus.drawing = some GameStatus.voting ∧
     nextPhaseMap GameStatus.voting = some GameStatus.completed) ∧
    ∀ (s : GameStatus) (st : GameStore) (now : Int) (b : Bool),
      (s = GameStatus.waiting ∨ s = GameStatus.results ∨
       s = GameStatus.completed ∨ s = GameStatus.cancelled) →
      attemptTransition s st now b =
        ⟨TransitionResult.skipped, st, [], some SkipReason.noNextPhase⟩ := by
  refine ⟨⟨rfl, rfl, rfl⟩, ?_⟩
  rintro s st now b (rfl | rfl | rfl | rfl) <;> rfl

theorem attemptTransition_nextPhaseMap_and_invalid_noop_witness :
    (GameStatus.waiting = GameStatus.waiting ∨
     GameStatus.waiting = GameStatus.results ∨
     GameStatus.waiting = GameStatus.completed ∨
     GameStatus.waiting = GameStatus.cancelled) ∧
    attemptTransition GameStatus.waiting ⟨some ⟨GameStatus.waiting, some 0⟩, 2, 0, none⟩ 5 true =
      ⟨TransitionResult.skipped, ⟨some ⟨GameStatus.waiting, some 0⟩, 2, 0, none⟩, [],
        some SkipReason.noNextPhase⟩ :=
  ⟨Or.inl rfl,
    (attemptTransition_nextPhaseMap_and_invalid_noop.2 GameStatus.waiting
      ⟨some ⟨GameStatus.waiting, some 0⟩, 2, 0, none⟩ 5 true (Or.inl rfl))⟩

/-- Counts a per-game result against the `errors` counter of the monitor
(`errors++` happens only on a transition failure or a per-game
exception, never on a broadcast failure). -/
def errorsDelta : TransitionResult → Nat
  | TransitionResult.error => 1
  | _ => 0

/-- The transition execution is best-effort about broadcasting: result
and store do not depend on the broadcast outcome, and a failed broadcast
publishes nothing. -/
theorem execTransition_broadcast_bestEffort
    (a c : GameStatus) (s : GameStore) :
    (execTransition a c s false).result = (execTransition a c s true).result ∧
    (execTransition a c s false).store = (execTransition a c s true).store ∧
    (execTransition a c s false).broadcasts = [] := by
  unfold execTransition
  cases h : (transition_game_status a c s).1 <;> simp [h]

/-- Running `attemptTransition` with a failing broadcast: same result and same
store as with a succeeding broadcast, and nothing published. -/
theorem attemptTransition_broadcast_bestEffort
    (snapshot : GameStatus) (st : GameStore) (now : Int) :
    (attemptTransition snapshot st now false).result =
      (attemptTransition snapshot st now true).result ∧
    (attemptTransition snapshot st now false).store =
      (attemptTransition snapshot st now true).store ∧
    (attemptTransition snapshot st now false).broadcasts = [] := by
  cases hnp : nextPhaseMap snapshot
  case none => simp [attemptTransition, hnp]
  case some nextStatus =>
    unfold attemptTransition
    rw [hnp]
    simp only
    generalize (if snapshot = GameStatus.drawing ∧ nextStatus = GameStatus.voting
      then handleDrawingPhaseGracePeriod st now
      else (⟨false, false⟩, st)) = gs
    obtain ⟨⟨sk, dl⟩, st1⟩ := gs
    cases sk
    · cases dl
      · cases hg : st1.game
        · simp [hg]
        · rename_i gameCheck
          by_cases hst : gameCheck.status = snapshot
          · cases hex : gameCheck.phase_expires_at
            · simpa [hg, hst, hex] using
                execTransition_broadcast_bestEffort snapshot nextStatus st1
            · rename_i e
              by_cases hlt : e > now
              · simp [hg, hst, hex, hlt]
              · simpa [hg, hst, hex, hlt] using
                  execTransition_broadcast_bestEffort snapshot nextStatus st1
          · simp [hg, hst]
      · simp
    · simp

/-- C7 -- For every game whose status update succeeds, a subsequent
failure of the broadcast call leaves the result for that game as
`processed`: the transition is not reverted (the post-call store is the
same as with a succeeding broadcast) and the `errors` counter is not
incremented. -/
theorem broadcast_failure_keeps_processed
    (snapshot : GameStatus) (st : GameStore) (now : Int)
    (h : (attemptTransition snapshot st now true).result =
      TransitionResult.processed) :
    (attemptTransition snapshot st now false).result =
      TransitionResult.processed ∧
    (attemptTransition snapshot st now false).store =
      (attemptTransition snapshot st now true).store ∧
    (attemptTransition snapshot st now false).broadcasts = [] ∧
    errorsDelta (attemptTransition snapshot st now false).result = 0 := by
  obtain ⟨hr, hs, hb⟩ := attemptTransition_broadcast_bestEffort snapshot st now
  rw [hr, h]
  exact ⟨rfl, hs, hb, rfl⟩

theorem broadcast_failure_keeps_processed_witness :
    (attemptTransition GameStatus.briefing
        ⟨some ⟨GameStatus.briefing, some 0⟩, 0, 0, none⟩ 5 true).result =
      TransitionResult.processed ∧
    ((attemptTransition GameStatus.briefing
        ⟨some ⟨GameStatus.briefing, some 0⟩, 0, 0, none⟩ 5 false).result =
      TransitionResult.processed ∧
     (attemptTransition GameStatus.briefing
        ⟨some ⟨GameStatus.briefing, some 0⟩, 0, 0, none⟩ 5 false).store =
      (attemptTransition GameStatus.briefing
        ⟨some ⟨GameStatus.briefing, some 0⟩, 0, 0, none⟩ 5 true).store ∧
     (attemptTransition GameStatus.briefing
        ⟨some ⟨GameStatus.briefing, some 0⟩, 0, 0, none⟩ 5 false).broadcasts = [] ∧
     errorsDelta (attemptTransition GameStatus.briefing
        ⟨some ⟨GameStatus.briefing, some 0⟩, 0, 0, none⟩ 5 false).result = 0) :=
  ⟨by decide,
    broadcast_failure_keeps_processed GameStatus.briefing
      ⟨some ⟨GameStatus.briefing, some 0⟩, 0, 0, none⟩ 5 (by decide)⟩

/-- C3 -- For every expired game in status drawing: if the submission
count is at least the participant count, the game transitions to voting
on the first expiry check and no GraceRecord is ever created (the grace
entry is left exactly as it was); otherwise, if no GraceRecord exists,
the call creates one with `grace_started_at = now`, re-arms
`phase_expires_at` to 15 seconds into the future, and returns skipped
(delayed) without transitioning. -/
theorem attemptTransition_drawing_first_expiry
    (p s : Nat) (g : Option Int) (now expiresAt : Int) (b : Bool)
    (hexp : expiresAt ≤ now) :
    (s ≥ p →
      attemptTransition GameStatus.drawing
          ⟨some ⟨GameStatus.drawing, some expiresAt⟩, p, s, g⟩ now b =
        ⟨TransitionResult.processed,
         ⟨some ⟨GameStatus.voting, some expiresAt⟩, p, s, g⟩,
         if b then [(GameStatus.drawing, GameStatus.voting)] else [], none⟩) ∧
    (s < p → g = none →
      attemptTransition GameStatus.drawing
          ⟨some ⟨GameStatus.drawing, some expiresAt⟩, p, s, g⟩ now b =
        ⟨TransitionResult.skipped,
         ⟨some ⟨GameStatus.drawing, some (now + gracePeriodSeconds * 1000)⟩,
          p, s, some now⟩,
         [], some SkipReason.graceDelay⟩) := by
  have h2 : ¬ now < expiresAt := not_lt.mpr hexp
  constructor
  · intro hge
    simp [attemptTransition, handleDrawingPhaseGracePeriod, execTransition,
      transition_game_status, casStatus, nextPhaseMap, hge, h2]
  · rintro hlt rfl
    have h1 : ¬ s ≥ p := not_le.mpr hlt
    simp [attemptTransition, handleDrawingPhaseGracePeriod, nextPhaseMap, h1]

theorem attemptTransition_drawing_first_expiry_witness :
    (attemptTransition GameStatus.drawing
        ⟨some ⟨GameStatus.drawing, some 0⟩, 2, 2, none⟩ 10 true =
      ⟨TransitionResult.processed,
       ⟨some ⟨GameStatus.voting, some 0⟩, 2, 2, none⟩,
       [(GameStatus.drawing, GameStatus.voting)], none⟩) ∧
    (attemptTransition GameStatus.drawing
        ⟨some ⟨GameStatus.drawing, some 0⟩, 2, 1, none⟩ 10 true =
      ⟨TransitionResult.skipped,
       ⟨some ⟨GameStatus.drawing, some (10 + gracePeriodSeconds * 1000)⟩,
        2, 1, some 10⟩,
       [], some SkipReason.graceDelay⟩) :=
  ⟨(attemptTransition_drawing_first_expiry 2 2 none 10 0 true (by decide)).1
      (by decide),
   (attemptTransition_drawing_first_expiry 2 1 none 10 0 true (by decide)).2
      (by decide) rfl⟩

/-- C4 counterexample -- an expired drawing game that already has a
GraceRecord (started at 0) and whose submissions are complete (1 of 1),
checked at now = 5000 < grace_started_at + 15s: the claim says the call
returns skipped without transitioning, but the code takes the
all-submitted branch first, so the call transitions the game to voting
(and, for the grace-elapsed reading, never deletes the GraceRecord:
the grace entry survives the transition). -/
theorem grace_window_claim_counterexample :
    (5000 : Int) < 0 + gracePeriodSeconds * 1000 ∧
    (attemptTransition GameStatus.drawing
        ⟨some ⟨GameStatus.drawing, some 0⟩, 1, 1, some 0⟩ 5000 true).result ≠
      TransitionResult.skipped ∧
    (attemptTransition GameStatus.drawing
        ⟨some ⟨GameStatus.drawing, some 0⟩, 1, 1, some 0⟩ 5000 true).store =
      ⟨some ⟨GameStatus.voting, some 0⟩, 1, 1, some 0⟩ := by decide

/-- C4 amended -- For every expired drawing game that already has a
GraceRecord and whose submission count is still below its participant
count: if now < grace_started_at + 15s the call returns skipped without
transitioning; if now ≥ grace_started_at + 15s the call deletes the
GraceRecord and transitions the game to voting. -/
theorem attemptTransition_grace_window
    (p s : Nat) (g now expiresAt : Int) (b : Bool)
    (hexp : expiresAt ≤ now) (hinc : s < p) :
    (now < g + gracePeriodSeconds * 1000 →
      attemptTransition GameStatus.drawing
          ⟨some ⟨GameStatus.drawing, some expiresAt⟩, p, s, some g⟩ now b =
        ⟨TransitionResult.skipped,
         ⟨some ⟨GameStatus.drawing, some expiresAt⟩, p, s, some g⟩, [],
         some SkipReason.graceDelay⟩) ∧
    (g + gracePeriodSeconds * 1000 ≤ now →
      attemptTransition GameStatus.drawing
          ⟨some ⟨GameStatus.drawing, some expiresAt⟩, p, s, some g⟩ now b =
        ⟨TransitionResult.processed,
         ⟨some ⟨GameStatus.voting, some expiresAt⟩, p, s, none⟩,
         if b then [(GameStatus.drawing, GameStatus.voting)] else [], none⟩) := by
  have h1 : ¬ s ≥ p := not_le.mpr hinc
  have h2 : ¬ now < expiresAt := not_lt.mpr hexp
  constructor
  · intro hwin
    have h3 : ¬ now ≥ g + gracePeriodSeconds * 1000 := not_le.mpr hwin
    simp [attemptTransition, handleDrawingPhaseGracePeriod, nextPhaseMap, h1, h3]
  · intro hdone
    have h3 : now ≥ g + gracePeriodSeconds * 1000 := hdone
    simp [attemptTransition, handleDrawingPhaseGracePeriod, execTransition,
      transition_game_status, casStatus, nextPhaseMap, h1, h2, h3]

theorem attemptTransition_grace_window_witness :
    (attemptTransition GameStatus.drawing
        ⟨some ⟨GameStatus.drawing, some 0⟩, 2, 1, some 0⟩ 5000 true =
      ⟨TransitionResult.skipped,
       ⟨some ⟨GameStatus.drawing, some 0⟩, 2, 1, some 0⟩, [],
       some SkipReason.graceDelay⟩) ∧
    (attemptTransition GameStatus.drawing
        ⟨some ⟨GameStatus.drawing, some 0⟩, 2, 1, some 0⟩ 20000 true =
      ⟨TransitionResult.processed,
       ⟨some ⟨GameStatus.voting, some 0⟩, 2, 1, none⟩,
       [(GameStatus.drawing, GameStatus.voting)], none⟩) :=
  ⟨(attemptTransition_grace_window 2 1 0 5000 0 true (by decide) (by decide)).1
      (by decide),
   (attemptTransition_grace_window 2 1 0 20000 0 true (by decide) (by decide)).2
      (by decide)⟩

/-- C6 counterexample -- an expired drawing game with 2 participants,
1 submission and no GraceRecord: calling `attemptTransition` twice in
immediate succession yields zero processed results and zero status
changes (both calls are skipped by the grace-period rule; the first call
merely starts the grace window and re-arms the timer to 16000), not the
exactly-one of the claim. -/
theorem idempotent_transition_counterexample :
    (0 : Int) ≤ 1000 ∧
    (attemptTransition GameStatus.drawing
        ⟨some ⟨GameStatus.drawing, some 0⟩, 2, 1, none⟩ 1000 true).result ≠
      TransitionResult.processed ∧
    (attemptTransition GameStatus.drawing
        (attemptTransition GameStatus.drawing
          ⟨some ⟨GameStatus.drawing, some 0⟩, 2, 1, none⟩ 1000 true).store
        1000 true).result ≠ TransitionResult.processed ∧
    (attemptTransition GameStatus.drawing
        (attemptTransition GameStatus.drawing
          ⟨some ⟨GameStatus.drawing, some 0⟩, 2, 1, none⟩ 1000 true).store
        1000 true).store.game = some ⟨GameStatus.drawing, some 16000⟩ := by
  decide

/-- C6 amended -- For every expired game whose transition executes
immediately (snapshot status briefing or voting, or drawing with
submission count at least participant count), calling `attemptTransition`
twice in immediate succession yields exactly one status change and one
processed result; the second call returns skipped because the re-read of
the game's current status detects that it no longer equals the snapshot
status, and mutates nothing. -/
theorem attemptTransition_idempotent
    (snapshot : GameStatus) (p s : Nat) (g : Option Int)
    (now expiresAt : Int) (b₁ b₂ : Bool) (hexp : expiresAt ≤ now)
    (hsnap : snapshot = GameStatus.briefing ∨ snapshot = GameStatus.voting ∨
      (snapshot = GameStatus.drawing ∧ p ≤ s)) :
    (attemptTransition snapshot
        ⟨some ⟨snapshot, some expiresAt⟩, p, s, g⟩ now b₁).result =
      TransitionResult.processed ∧
    (attemptTransition snapshot
        ⟨some ⟨snapshot, some expiresAt⟩, p, s, g⟩ now b₁).store =
      ⟨(nextPhaseMap snapshot).map (fun nxt => ⟨nxt, some expiresAt⟩), p, s, g⟩ ∧
    attemptTransition snapshot
        (attemptTransition snapshot
          ⟨some ⟨snapshot, some expiresAt⟩, p, s, g⟩ now b₁).store now b₂ =
      ⟨TransitionResult.skipped,
       (attemptTransition snapshot
          ⟨some ⟨snapshot, some expiresAt⟩, p, s, g⟩ now b₁).store,
       [], some SkipReason.statusChanged⟩ := by
  have h2 : ¬ now < expiresAt := not_lt.mpr hexp
  rcases hsnap with rfl | rfl | ⟨rfl, hps⟩
  · simp [attemptTransition, handleDrawingPhaseGracePeriod, execTransition,
      transition_game_status, casStatus, nextPhaseMap, h2]
  · simp [attemptTransition, handleDrawingPhaseGracePeriod, execTransition,
      transition_game_status, casStatus, nextPhaseMap, h2]
  · have hge : s ≥ p := hps
    simp [attemptTransition, handleDrawingPhaseGracePeriod, execTransition,
      transition_game_status, casStatus, nextPhaseMap, hge, h2]

theorem attemptTransition_idempotent_witness :
    (attemptTransition GameStatus.briefing
        ⟨some ⟨GameStatus.briefing, some 0⟩, 2, 0, none⟩ 5 true).result =
      TransitionResult.processed ∧
    (attemptTransition GameStatus.briefing
        ⟨some ⟨GameStatus.briefing, some 0⟩, 2, 0, none⟩ 5 true).store =
      ⟨(nextPhaseMap GameStatus.briefing).map (fun nxt => ⟨nxt, some 0⟩),
        2, 0, none⟩ ∧
    attemptTransition GameStatus.briefing
        (attemptTransition GameStatus.briefing
          ⟨some ⟨GameStatus.briefing, some 0⟩, 2, 0, none⟩ 5 true).store 5 true =
      ⟨TransitionResult.skipped,
       (attemptTransition GameStatus.briefing
          ⟨some ⟨GameStatus.briefing, some 0⟩, 2, 0, none⟩ 5 true).store,
       [], some SkipReason.statusChanged⟩ :=
  attemptTransition_idempotent GameStatus.briefing 2 0 none 5 0 true true
    (by decide) (Or.inl rfl)

/-- The next-phase mapping never maps a status to itself. -/
theorem nextPhaseMap_ne : ∀ snapshot nextStatus : GameStatus,
    nextPhaseMap snapshot = some nextStatus → snapshot ≠ nextStatus := by
  decide

/-- Program position of one of N concurrent `attemptTransition` callers
for the same expired-game snapshot, abstracted to its two accesses to the
shared status row: the status re-read (index.ts lines 754-759) and the
conditional update (line 775-779). -/
inductive ProcStage where
  | start
  | checked (ok : Bool)
  | done (succeeded : Bool)
deriving DecidableEq, Repr

/-- Shared state of the N concurrent callers: the game's status row, the
number of successful conditional updates performed on it so far, and each
caller's position. -/
structure ConcState where
  status : GameStatus
  writes : Nat
  procs : List ProcStage
deriving DecidableEq, Repr

/-- One atomic step of caller `i`: from `start` it re-reads the status
and records whether it still equals the snapshot; a caller that saw the
snapshot performs the conditional update (`casStatus`), succeeding only
if the status still equals the snapshot; a caller that saw a changed
status skips without writing. -/
def concStep (snapshot nextStatus : GameStatus) (s : ConcState) (i : Nat) :
    ConcState :=
  match s.procs[i]? with
  | none => s
  | some ProcStage.start =>
    { s with procs := s.procs.set i (ProcStage.checked (decide (s.status = snapshot))) }
  | some (ProcStage.checked true) =>
    let c := casStatus snapshot nextStatus s.status
    if c.1 then
      { status := c.2, writes := s.writes + 1,
        procs := s.procs.set i (ProcStage.done true) }
    else
      { s with procs := s.procs.set i (ProcStage.done false) }
  | some (ProcStage.checked false) =>
    { s with procs := s.procs.set i (ProcStage.done false) }
  | some (ProcStage.done _) => s

/-- Run the N callers under an arbitrary interleaving: the schedule lists
which caller performs its next atomic step. -/
def concRun (snapshot nextStatus : GameStatus) (sched : List Nat)
    (s : ConcState) : ConcState :=
  sched.foldl (concStep snapshot nextStatus) s

/-- N callers about to process the same snapshot of an expired game whose
row still holds the snapshot status. -/
def concInit (snapshot : GameStatus) (n : Nat) : ConcState :=
  ⟨snapshot, 0, List.replicate n ProcStage.start⟩

/-- Whether a caller has finished. -/
def ProcStage.isDone : ProcStage → Bool
  | ProcStage.done _ => true
  | _ => false

/-- Every caller has finished. -/
def allDone (s : ConcState) : Prop := ∀ p ∈ s.procs, p.isDone = true

instance (s : ConcState) : Decidable (allDone s) :=
  inferInstanceAs (Decidable (∀ p ∈ s.procs, p.isDone = true))

/-- Invariant of the interleaved execution: either nobody has written yet
(the row still holds the snapshot, nobody finished, and every re-read so
far saw the snapshot), or exactly one conditional update has succeeded
and the row holds the next status. -/
def ConcInv (snapshot nextStatus : GameStatus) (s : ConcState) : Prop :=
  (s.status = snapshot ∧ s.writes = 0 ∧
    ∀ p ∈ s.procs, p = ProcStage.start ∨ p = ProcStage.checked true) ∨
  (s.status = nextStatus ∧ s.writes = 1)

theorem concStep_preserves (snapshot nextStatus : GameStatus)
    (hne : snapshot ≠ nextStatus) (s : ConcState) (i : Nat)
    (h : ConcInv snapshot nextStatus s) :
    ConcInv snapshot nextStatus (concStep snapshot nextStatus s i) := by
  unfold concStep
  cases hp : s.procs[i]? with
  | none => exact h
  | some stage =>
    have hmem : stage ∈ s.procs := by
      obtain ⟨hlt, hget⟩ := List.getElem?_eq_some.mp hp
      exact hget ▸ List.getElem_mem hlt
    rcases h with ⟨hst, hw, hall⟩ | ⟨hst, hw⟩
    · -- nobody has written yet
      cases stage with
      | start =>
        left
        refine ⟨hst, hw, ?_⟩
        intro p hpmem
        rcases List.mem_or_eq_of_mem_set hpmem with hp' | hp'
        · exact hall p hp'
        · right
          rw [hp']
          simp [hst]
      | checked ok =>
        have hok : ok = true := by
          rcases hall _ hmem with hstart | hcheck
          · exact absurd hstart (by simp)
          · injection hcheck
        subst hok
        have hcas1 : (casStatus snapshot nextStatus s.status).1 = true := by
          simp [casStatus, hst]
        have hcas2 : (casStatus snapshot nextStatus s.status).2 = nextStatus := by
          simp [casStatus, hst]
        simp only [hcas1, if_true]
        right
        exact ⟨hcas2, by show s.writes + 1 = 1; omega⟩
      | done b =>
        exfalso
        rcases hall _ hmem with hstart | hcheck
        · exact absurd hstart (by simp)
        · exact absurd hcheck (by simp)
    · -- exactly one write happened
      cases stage with
      | start => exact Or.inr ⟨hst, hw⟩
      | checked ok =>
        cases ok with
        | true =>
          have hne' : nextStatus ≠ snapshot := Ne.symm hne
          have hcas1 : (casStatus snapshot nextStatus s.status).1 = false := by
            simp [casStatus, hst, hne']
          simp only [hcas1, Bool.false_eq_true, if_false]
          exact Or.inr ⟨hst, hw⟩
        | false => exact Or.inr ⟨hst, hw⟩
      | done b => exact Or.inr ⟨hst, hw⟩

theorem concRun_preserves (snapshot nextStatus : GameStatus)
    (hne : snapshot ≠ nextStatus) (sched : List Nat) (s : ConcState)
    (h : ConcInv snapshot nextStatus s) :
    ConcInv snapshot nextStatus (concRun snapshot nextStatus sched s) := by
  induction sched generalizing s with
  | nil => exact h
  | cons i rest ih =>
    exact ih _ (concStep_preserves snapshot nextStatus hne s i h)

theorem concStep_length (snapshot nextStatus : GameStatus) (s : ConcState)
    (i : Nat) :
    (concStep snapshot nextStatus s i).procs.length = s.procs.length := by
  unfold concStep
  cases hp : s.procs[i]? with
  | none => rfl
  | some stage =>
    cases stage with
    | start => simp
    | checked ok =>
      cases ok with
      | true =>
        by_cases hc : (casStatus snapshot nextStatus s.status).1 = true <;>
          simp [hc]
      | false => simp
    | done b => rfl

theorem concRun_length (snapshot nextStatus : GameStatus) (sched : List Nat)
    (s : ConcState) :
    (concRun snapshot nextStatus sched s).procs.length = s.procs.length := by
  induction sched generalizing s with
  | nil => rfl
  | cons i rest ih =>
    rw [concRun, List.foldl_cons, ← concRun]
    rw [ih, concStep_length]

/-- C1 -- among N ≥ 1 concurrent `attemptTransition` callers holding the
same snapshot of an expired game (each re-reading the status and then
performing the single conditional write `casStatus`, conditioned on the
snapshot status, as modelled by `transition_game_status`), under every
interleaving in which all callers finish, exactly one conditional update
succeeds: the shared row is written exactly once and ends at the next
status. -/
theorem concurrent_attempts_exactly_one_write
    (snapshot nextStatus : GameStatus) (n : Nat) (sched : List Nat)
    (hmap : nextPhaseMap snapshot = some nextStatus) (hn : 1 ≤ n)
    (hdone : allDone (concRun snapshot nextStatus sched (concInit snapshot n))) :
    (concRun snapshot nextStatus sched (concInit snapshot n)).writes = 1 ∧
    (concRun snapshot nextStatus sched (concInit snapshot n)).status =
      nextStatus := by
  have hne : snapshot ≠ nextStatus := nextPhaseMap_ne snapshot nextStatus hmap
  have hinv : ConcInv snapshot nextStatus
      (concRun snapshot nextStatus sched (concInit snapshot n)) := by
    apply concRun_preserves snapshot nextStatus hne
    left
    refine ⟨rfl, rfl, ?_⟩
    intro p hpmem
    left
    exact (List.eq_of_mem_replicate hpmem)
  rcases hinv with ⟨hst, hw, hall⟩ | ⟨hst, hw⟩
  · exfalso
    have hlen : (concRun snapshot nextStatus sched (concInit snapshot n)).procs.length = n := by
      rw [concRun_length]
      simp [concInit]
    have hpos : 0 < (concRun snapshot nextStatus sched (concInit snapshot n)).procs.length := by
      omega
    obtain ⟨p, hpmem⟩ := List.exists_mem_of_length_pos hpos
    have hd := hdone p hpmem
    rcases hall p hpmem with rfl | rfl <;> simp [ProcStage.isDone] at hd
  · exact ⟨hw, hst⟩

theorem concurrent_attempts_exactly_one_write_witness :
    (concRun GameStatus.briefing GameStatus.drawing [0, 0, 1, 1]
      (concInit GameStatus.briefing 2)).writes = 1 ∧
    (concRun GameStatus.briefing GameStatus.drawing [0, 0, 1, 1]
      (concInit GameStatus.briefing 2)).status = GameStatus.drawing :=
  concurrent_attempts_exactly_one_write GameStatus.briefing GameStatus.drawing
    2 [0, 0, 1, 1] (by decide) (by decide) (by decide)

/-- The per-game body of the loop of `monitor_game_timers_db`
(database_timer_monitoring.sql lines 128-199): compute the next status
from the CASE mapping; for a drawing game the participant and submission
counts are read only into local variables for a NOTICE ("For now, we'll
proceed with transition", lines 148-167); then call
`transition_game_status` unconditionally and count the boolean outcome.
No `game_metadata` grace entry is created, read, or deleted. -/
def monitorDbProcessGame (snapshot : GameStatus) (st : GameStore) :
    TransitionResult × GameStore :=
  match next_status_db snapshot with
  | none => (TransitionResult.skipped, st)
  | some nextStatus =>
    let r := transition_game_status snapshot nextStatus st
    if r.1 then (TransitionResult.processed, r.2)
    else (TransitionResult.error, r.2)

/-- C5 -- In `monitor_game_timers_db`, every expired game in status
drawing is transitioned to voting in the same tick via
`transition_game_status` regardless of how many participants have
submitted; the grace entry is never created or deleted (it is preserved
on all inputs) and never read (the outcome is invariant under changing
it), whereas the Edge Function monitor, on the same incomplete drawing
game, delays the transition and creates a GraceRecord. -/
theorem monitorDb_drawing_no_grace
    (p s : Nat) (g e : Option Int) :
    (monitorDbProcessGame GameStatus.drawing
        ⟨some ⟨GameStatus.drawing, e⟩, p, s, g⟩ =
      (TransitionResult.processed, ⟨some ⟨GameStatus.voting, e⟩, p, s, g⟩)) ∧
    (∀ (snapshot : GameStatus) (st : GameStore),
      (monitorDbProcessGame snapshot st).2.grace = st.grace) ∧
    (∀ (snapshot : GameStatus) (st : GameStore) (g' : Option Int),
      (monitorDbProcessGame snapshot { st with grace := g' }).1 =
        (monitorDbProcessGame snapshot st).1 ∧
      (monitorDbProcessGame snapshot { st with grace := g' }).2.game =
        (monitorDbProcessGame snapshot st).2.game) ∧
    (s < p → g = none → ∀ (now : Int) (b : Bool),
      attemptTransition GameStatus.drawing
          ⟨some ⟨GameStatus.drawing, e⟩, p, s, g⟩ now b =
        ⟨TransitionResult.skipped,
         ⟨some ⟨GameStatus.drawing, some (now + gracePeriodSeconds * 1000)⟩,
          p, s, some now⟩,
         [], some SkipReason.graceDelay⟩) := by
  refine ⟨?_, ?_, ?_, ?_⟩
  · simp [monitorDbProcessGame, next_status_db, transition_game_status, casStatus]
  · intro snapshot st
    unfold monitorDbProcessGame
    cases hns : next_status_db snapshot
    · rfl
    · cases hg : st.game
      · simp [transition_game_status, hg]
      · rename_i nextStatus row
        by_cases hrs : row.status = snapshot <;>
          simp [transition_game_status, casStatus, hg, hrs]
  · intro snapshot st g'
    unfold monitorDbProcessGame
    cases hns : next_status_db snapshot
    · exact ⟨rfl, rfl⟩
    · cases hg : st.game
      · simp [transition_game_status, hg]
      · rename_i nextStatus row
        by_cases hrs : row.status = snapshot <;>
          simp [transition_game_status, casStatus, hg, hrs]
  · rintro hlt rfl now b
    have h1 : ¬ s ≥ p := not_le.mpr hlt
    simp [attemptTransition, handleDrawingPhaseGracePeriod, nextPhaseMap, h1]

theorem monitorDb_drawing_no_grace_witness :
    (monitorDbProcessGame GameStatus.drawing
        ⟨some ⟨GameStatus.drawing, some 0⟩, 2, 1, none⟩ =
      (TransitionResult.processed,
        ⟨some ⟨GameStatus.voting, some 0⟩, 2, 1, none⟩)) ∧
    attemptTransition GameStatus.drawing
        ⟨some ⟨GameStatus.drawing, some 0⟩, 2, 1, none⟩ 7 true =
      ⟨TransitionResult.skipped,
       ⟨some ⟨GameStatus.drawing, some (7 + gracePeriodSeconds * 1000)⟩,
        2, 1, some 7⟩,
       [], some SkipReason.graceDelay⟩ :=
  ⟨(monitorDb_drawing_no_grace 2 1 none (some 0)).1,
   (monitorDb_drawing_no_grace 2 1 none (some 0)).2.2.2 (by decide) rfl 7 true⟩

/-- Outcome of the advisory-lock acquisition at the start of a run
(`acquireProductionLock`, index.ts lines 1270-1317): the lock is
acquired, or the RPC reports it held by another run, or the RPC itself
errors. -/
inductive LockOutcome where
  | acquired
  | notAcquired
  | rpcError
deriving DecidableEq, Repr

/-- Outcome of the body of the run after the lock was acquired: normal
processing, a failing expired-games query (index.ts lines 656-667), the
wall-clock timeout check before the query (lines 640-643), or an
unexpected exception reaching the outer catch (lines 873-889). -/
inductive BodyOutcome where
  | ok
  | queryError
  | timeout
  | thrown
deriving DecidableEq, Repr

/-- Observable trace of one `runOnce` invocation: the counters of the
returned monitoring result, its message, the HTTP status, whether the
expired-games query ran, whether the lock was acquired and released, how
many times acquisition was attempted, and the per-game stores after the
run. -/
structure RunTrace where
  processed : Nat
  errors : Nat
  skipped : Nat
  message : Option String
  httpStatus : Nat
  queried : Bool
  lockWasAcquired : Bool
  lockReleased : Bool
  acquireAttempts : Nat
  stores : List GameStore
deriving DecidableEq, Repr

/-- Accumulate one per-game result into the `(processed, errors,
skipped)` counters. -/
def tallyResult (acc : Nat × Nat × Nat) (r : TransitionResult) :
    Nat × Nat × Nat :=
  match r with
  | TransitionResult.processed => (acc.1 + 1, acc.2.1, acc.2.2)
  | TransitionResult.error => (acc.1, acc.2.1 + 1, acc.2.2)
  | TransitionResult.skipped => (acc.1, acc.2.1, acc.2.2 + 1)

/-- Step 4 of the run: process the expired-game snapshots through
`attemptTransition` (chunked concurrency over distinct games modelled as
sequential processing), accumulating the counters and the resulting
stores. -/
def processExpiredGames (games : List (GameStatus × GameStore)) (now : Int)
    (broadcastOk : Bool) : (Nat × Nat × Nat) × List GameStore :=
  games.foldl
    (fun acc g =>
      let o := attemptTransition g.1 g.2 now broadcastOk
      (tallyResult acc.1 o.result, acc.2 ++ [o.store]))
    ((0, 0, 0), [])

/-- The production control flow of the monitor Edge Function handler, `runOnce`
(index.ts lines 530-890).  If the advisory lock is not acquired
the run returns immediately (lines 594-613) with
processed 0 / errors 0 / skipped 1 and the reason string of
`acquireProductionLock` (line 1304), performing no query and no game
mutation; a lock RPC error returns a 500 without processing (line 628);
once the lock is acquired, every body outcome reaches the `finally`
block that releases it (lines 841-853). -/
def runOnce (lock : LockOutcome) (body : BodyOutcome)
    (games : List (GameStatus × GameStore)) (now : Int)
    (broadcastOk : Bool) : RunTrace :=
  match lock with
  | LockOutcome.notAcquired =>
    ⟨0, 0, 1, some ("Timer monitoring already in progress"), 200,
      false, false, false, 1, games.map Prod.snd⟩
  | LockOutcome.rpcError =>
    ⟨0, 0, 0, some ("Failed to acquire advisory lock"), 500,
      false, false, false, 1, games.map Prod.snd⟩
  | LockOutcome.acquired =>
    match body with
    | BodyOutcome.timeout =>
      ⟨0, 0, 0, some ("Execution timeout"), 408,
        false, true, true, 1, games.map Prod.snd⟩
    | BodyOutcome.queryError =>
      ⟨0, 1, 0, some ("Database query failed"), 500,
        true, true, true, 1, games.map Prod.snd⟩
    | BodyOutcome.thrown =>
      ⟨0, 1, 0, some ("Internal server error"), 500,
        true, true, true, 1, games.map Prod.snd⟩
    | BodyOutcome.ok =>
      let pr := processExpiredGames games now broadcastOk
      ⟨pr.1.1, pr.1.2.1, pr.1.2.2, none, 200,
        true, true, true, 1, pr.2⟩

/-- C8 -- If the advisory lock is not acquired at the start of `runOnce`,
the run returns immediately with processed = 0, errors = 0, skipped = 1
and the already-in-progress message, performing no expired-games query
and no game mutation (all stores are returned untouched), and makes
exactly one (non-blocking) acquisition attempt rather than waiting. -/
theorem runOnce_lock_not_acquired_skips
    (body : BodyOutcome) (games : List (GameStatus × GameStore))
    (now : Int) (b : Bool) :
    runOnce LockOutcome.notAcquired body games now b =
      ⟨0, 0, 1, some ("Timer monitoring already in progress"), 200,
        false, false, false, 1, games.map Prod.snd⟩ := rfl

/-- C9 -- On every execution path of `runOnce` in which the advisory
lock was acquired -- including the early-error and exception paths --
the lock is released before the invocation returns. -/
theorem runOnce_releases_lock
    (lock : LockOutcome) (body : BodyOutcome)
    (games : List (GameStatus × GameStore)) (now : Int) (b : Bool)
    (h : (runOnce lock body games now b).lockWasAcquired = true) :
    (runOnce lock body games now b).lockReleased = true := by
  cases lock <;> cases body <;> simp [runOnce] at h ⊢

theorem runOnce_releases_lock_witness :
    (runOnce LockOutcome.acquired BodyOutcome.thrown [] 0 true).lockReleased =
      true :=
  runOnce_releases_lock LockOutcome.acquired BodyOutcome.thrown [] 0 true rfl

/-- Constant `CONFIG.MAX_PAYLOAD_SIZE` (index.ts line 34). -/
def MAX_PAYLOAD_SIZE : Nat := 32 * 1024

/-- Constant `CONFIG.REQUEST_TIMEOUT` (index.ts line 35): the per-attempt abort
timeout in milliseconds. -/
def REQUEST_TIMEOUT : Nat := 10000

/-- Constant `CONFIG.RETRY_ATTEMPTS` (index.ts line 36). -/
def RETRY_ATTEMPTS : Nat := 3

/-- Constant `CONFIG.RETRY_DELAY` (index.ts line 37): base backoff delay in
milliseconds. -/
def RETRY_DELAY : Nat := 1000

/-- Observable trace of the publish attempts for one channel: how many
attempts ran, the waits performed between consecutive attempts (in
order), the abort timeout applied to each attempt, and whether the
publish eventually succeeded. -/
structure RetryTrace where
  attemptsMade : Nat
  delays : List Nat
  timeouts : List Nat
  success : Bool
deriving DecidableEq, Repr

/-- The attempt loop of `broadcastToPubNubWithRetry` (index.ts lines
305-333), parametrised over an oracle giving the outcome of each
(1-based) attempt: on success return; after a failed attempt that is not
the last, wait `RETRY_DELAY * 2 ^ (attempt - 1)` ms (line 326); each
attempt runs `broadcastToPubNub` under the `REQUEST_TIMEOUT` abort
controller (lines 387-398). -/
def runAttempts (oracle : Nat → Bool) : Nat → Nat → RetryTrace
  | _, 0 => ⟨0, [], [], false⟩
  | attempt, remaining + 1 =>
    if oracle attempt then
      ⟨1, [], [REQUEST_TIMEOUT], true⟩
    else if remaining = 0 then
      ⟨1, [], [REQUEST_TIMEOUT], false⟩
    else
      let rest := runAttempts oracle (attempt + 1) remaining
      ⟨rest.attemptsMade + 1,
       RETRY_DELAY * 2 ^ (attempt - 1) :: rest.delays,
       REQUEST_TIMEOUT :: rest.timeouts,
       rest.success⟩

/-- Embeds `broadcastToPubNubWithRetry` (index.ts lines 297-333): up to
`RETRY_ATTEMPTS` attempts starting at attempt 1. -/
def broadcastToPubNubWithRetry (oracle : Nat → Bool) : RetryTrace :=
  runAttempts oracle 1 RETRY_ATTEMPTS

/-- The channel loop of `broadcastWithRetry` (index.ts lines 246-263):
each channel is published independently, a failing channel's exception
is caught and recorded, and the loop continues with the next channel. -/
def broadcastWithRetry (channels : List String)
    (oracle : String → Nat → Bool) : List (String × RetryTrace) :=
  channels.map (fun c => (c, broadcastToPubNubWithRetry (oracle c)))

/-- C10 -- For each target channel the broadcaster attempts the publish
at most 3 times, waiting between consecutive attempts with exponential
backoff starting at 1 second (the k-th wait is `1000 * 2 ^ (k-1)` ms,
i.e. 1s then 2s; with 3 attempts at most two waits occur) and applying
the 10-second per-attempt timeout to every attempt; a channel that fails
all its retries does not prevent publishing to the remaining channels. -/
theorem broadcaster_retry_policy :
    (∀ oracle : Nat → Bool,
      (broadcastToPubNubWithRetry oracle).attemptsMade ≤ RETRY_ATTEMPTS ∧
      RETRY_ATTEMPTS = 3 ∧
      (broadcastToPubNubWithRetry oracle).delays =
        (List.range ((broadcastToPubNubWithRetry oracle).attemptsMade - 1)).map
          (fun k => RETRY_DELAY * 2 ^ k) ∧
      (broadcastToPubNubWithRetry oracle).timeouts =
        List.replicate (broadcastToPubNubWithRetry oracle).attemptsMade
          REQUEST_TIMEOUT ∧
      REQUEST_TIMEOUT = 10000) ∧
    (∀ (a b : String) (oracle : String → Nat → Bool),
      (∀ k, oracle a k = false) → oracle b 1 = true →
      broadcastWithRetry [a, b] oracle =
        [(a, ⟨3, [1000, 2000], [10000, 10000, 10000], false⟩),
         (b, ⟨1, [], [10000], true⟩)]) := by
  constructor
  · intro oracle
    cases h1 : oracle 1 <;> cases h2 : oracle 2 <;> cases h3 : oracle 3 <;>
      simp [broadcastToPubNubWithRetry, RETRY_ATTEMPTS, runAttempts,
        h1, h2, h3, RETRY_DELAY, REQUEST_TIMEOUT, List.range_succ]
  · intro a b oracle ha hb
    simp [broadcastWithRetry, broadcastToPubNubWithRetry, RETRY_ATTEMPTS,
      runAttempts, ha, hb, RETRY_DELAY, REQUEST_TIMEOUT]

theorem broadcaster_retry_policy_witness :
    ((broadcastToPubNubWithRetry (fun _ => false)).attemptsMade ≤
        RETRY_ATTEMPTS ∧
      RETRY_ATTEMPTS = 3 ∧
      (broadcastToPubNubWithRetry (fun _ => false)).delays =
        (List.range
          ((broadcastToPubNubWithRetry (fun _ => false)).attemptsMade - 1)).map
          (fun k => RETRY_DELAY * 2 ^ k) ∧
      (broadcastToPubNubWithRetry (fun _ => false)).timeouts =
        List.replicate (broadcastToPubNubWithRetry (fun _ => false)).attemptsMade
          REQUEST_TIMEOUT ∧
      REQUEST_TIMEOUT = 10000) ∧
    broadcastWithRetry ["a", "b"] (fun c _ => c == "b") =
      [("a", ⟨3, [1000, 2000], [10000, 10000, 10000], false⟩),
       ("b", ⟨1, [], [10000], true⟩)] :=
  ⟨broadcaster_retry_policy.1 (fun _ => false),
   broadcaster_retry_policy.2 ("a") ("b") (fun c _ => c == "b")
     (fun _ => rfl) (by decide)⟩
